import Mathlib

/-!
Shallow embedding of the Dynamic-RAG-Platform core pipeline:
the strategy router (`src/utils/retriever_agent.py`, `get_retriever_decision`),
the relevance grader (`grade_documents`), the orchestrator turn handling
(`src/views/chat_page.py`, `render_page`, lines 191-343), and the interaction
store (`src/utils/database.py`).

Python dictionaries are embedded as association lists over a JSON-like value
type `Val`; external services (the Groq classification/grading/generation
calls and the Tavily web search) are modelled as explicit environment records
whose fields carry the outcome of each call (`Except` for calls that can
raise). Machine integers do not overflow in any modelled code path, so `Int`
and `Nat` are used directly.
-/

/-- JSON-like values, embedding Python dict/list/str/int/None values as they
appear in metadata dictionaries, parsed service responses and logged rows. -/
inductive Val where
  | str : String → Val
  | int : Int → Val
  | list : List Val → Val
  | dict : List (String × Val) → Val
  | null : Val
deriving Repr

mutual

/-- Python `repr` of a `Val` (used by `str` on containers). -/
def pyRepr : Val → String
  | Val.str s => "'" ++ s ++ "'"
  | Val.int n => toString n
  | Val.null => "None"
  | Val.list l => "[" ++ pyReprList l ++ "]"
  | Val.dict l => "\x7b" ++ pyReprDict l ++ "\x7d"

/-- Comma-separated `repr`s of list elements. -/
def pyReprList : List Val → String
  | [] => ""
  | [v] => pyRepr v
  | v :: rest => pyRepr v ++ ", " ++ pyReprList rest

/-- Comma-separated `repr`s of dict entries. -/
def pyReprDict : List (String × Val) → String
  | [] => ""
  | [(k, v)] => "'" ++ k ++ "': " ++ pyRepr v
  | (k, v) :: rest => "'" ++ k ++ "': " ++ pyRepr v ++ ", " ++ pyReprDict rest

end

/-- Python `str()` of a `Val`, as used in f-string interpolation. -/
def pyStr : Val → String
  | Val.str s => s
  | v => pyRepr v

/-- Modelled from the spec: `utils/constants.py` is not among the provided
source files; the spec fixes the closed enumeration
\x7bDirectLLM, VectorBased, WebSearch, Hybrid\x7d and the docstring of
`get_retriever_decision` names the string values 'Direct LLM',
'Vector-Based', 'Hybrid'. -/
inductive RetrievalStrategy where
  | DIRECT_LLM
  | VECTOR_BASED
  | WEB_SEARCH
  | HYBRID
deriving DecidableEq, Repr

/-- The `.value` string of each enum member (see `RetrievalStrategy`). -/
def RetrievalStrategy.value : RetrievalStrategy → String
  | .DIRECT_LLM => "Direct LLM"
  | .VECTOR_BASED => "Vector-Based"
  | .WEB_SEARCH => "Web Search"
  | .HYBRID => "Hybrid"

/-- `[s.value for s in RetrievalStrategy]` (retriever_agent.py line 94). -/
def strategyValues : List String :=
  [RetrievalStrategy.DIRECT_LLM.value, RetrievalStrategy.VECTOR_BASED.value,
   RetrievalStrategy.WEB_SEARCH.value, RetrievalStrategy.HYBRID.value]

/- URL extraction (retriever_agent.py lines 36-48):
`re.findall(r'https?://(?:[-\w.]|(?:%[\da-fA-F]{2}))+', user_query)`.
The scanner below implements exactly this pattern: the scheme `http://` or
`https://` followed by one or more units, each unit a single character in
`[-\w.]` or a percent-escape `%hh`.  `\w` is modelled as ASCII
`[A-Za-z0-9_]` (the queries of interest are ASCII). -/

/-- A hexadecimal digit, as matched by `[\da-fA-F]`. -/
def isHexDig (c : Char) : Bool :=
  c.isDigit || ('a' ≤ c && c ≤ 'f') || ('A' ≤ c && c ≤ 'F')

/-- A character matched by the regex class `[-\w.]`. -/
def isUrlBodyChar (c : Char) : Bool :=
  c = '-' || c.isAlphanum || c = '_' || c = '.'

/-- Greedy match of `(?:[-\w.]|(?:%[\da-fA-F]{2}))+`-body characters:
returns the consumed characters and the unconsumed rest. -/
def urlBody : List Char → List Char × List Char
  | [] => ([], [])
  | c :: rest =>
    if isUrlBodyChar c then
      let p := urlBody rest
      (c :: p.1, p.2)
    else if c = '%' then
      match rest with
      | h1 :: h2 :: rest2 =>
        if isHexDig h1 && isHexDig h2 then
          let p := urlBody rest2
          ('%' :: h1 :: h2 :: p.1, p.2)
        else ([], c :: rest)
      | _ => ([], c :: rest)
    else ([], c :: rest)

/-- `some rest` when `p` is a literal leading segment of the input. -/
def stripLeading : List Char → List Char → Option (List Char)
  | [], rest => some rest
  | _ :: _, [] => none
  | p :: ps, c :: cs => if c = p then stripLeading ps cs else none

/-- Attempt to match the whole URL regex at the head of the input; on success
returns the matched URL and the rest of the input. -/
def matchUrlAt (s : List Char) : Option (String × List Char) :=
  match stripLeading ['h','t','t','p','s',':','/','/'] s with
  | some r =>
    let p := urlBody r
    if p.1.isEmpty then none
    else some (String.mk (['h','t','t','p','s',':','/','/'] ++ p.1), p.2)
  | none =>
    match stripLeading ['h','t','t','p',':','/','/'] s with
    | some r =>
      let p := urlBody r
      if p.1.isEmpty then none
      else some (String.mk (['h','t','t','p',':','/','/'] ++ p.1), p.2)
    | none => none

/-- `re.findall` scan: try a match at each position, emit non-overlapping
matches left to right.  The fuel argument bounds the number of scan steps;
each step strictly shortens the input, so fuel `s.length` is always enough
(see `findallUrls`). -/
def findallAux : Nat → List Char → List String
  | 0, _ => []
  | _ + 1, [] => []
  | fuel + 1, c :: rest =>
    match matchUrlAt (c :: rest) with
    | some p => p.1 :: findallAux fuel p.2
    | none => findallAux fuel rest

/-- `re.findall(url_pattern, user_query)` over the characters of the query. -/
def findallUrls (s : List Char) : List String :=
  findallAux s.length s

/-- Python `str()` of a list of strings, e.g. `['https://a', 'https://b']`
(URL matches never contain a quote character, so `repr` never switches
quoting style). -/
def pyStrList (l : List String) : String :=
  "[" ++ String.intercalate ", " (l.map (fun u => "'" ++ u ++ "'")) ++ "]"

/-- Python truthiness of an optional string (`if not api_key`): falsy when
absent or empty. -/
def pyTruthy : Option String → Bool
  | none => false
  | some s => !s.isEmpty

/-- The JSON dict produced by a successful `chain.invoke` in the router:
`decision.get("strategy")` may be absent (`none`); the other two fields are
carried through to the returned decision. -/
structure ParsedDecision where
  strategy : Option String
  reasoning : String
  refined_query : String
deriving Repr

/-- Environment of one `get_retriever_decision` call: the outcome of the
initialization block (ChatGroq construction, prompt loading) and the outcome
of `chain.invoke` on each retry attempt (errors are the `str` of the raised
exception). -/
structure RouterEnv where
  init : Except String Unit
  attempts : Nat → Except String ParsedDecision

/-- The retry loop (retriever_agent.py lines 82-99): up to `remaining` more
attempts starting at index `i`; returns the first successful parse, or the
last error once attempts are exhausted. -/
def runRetries (f : Nat → Except String ParsedDecision) :
    Nat → Nat → Option String → Sum ParsedDecision (Option String)
  | _, 0, lastError => Sum.inr lastError
  | i, remaining + 1, _ =>
    match f i with
    | Except.ok d => Sum.inl d
    | Except.error e => runRetries f (i + 1) remaining (some e)

/-- The dict returned by `get_retriever_decision`; `urls` is `some` exactly
when the returned dict carries the extra `"urls"` key (URL short-circuit
branch only). -/
structure RouterDecision where
  strategy : String
  reasoning : String
  refined_query : String
  urls : Option (List String)
deriving Repr

/-- `get_retriever_decision(user_query, api_key, model_name)`
(retriever_agent.py lines 14-110). -/
def get_retriever_decision (user_query : String) (api_key : Option String)
    (env : RouterEnv) : RouterDecision :=
  let fallback : RouterDecision :=
    { strategy := RetrievalStrategy.VECTOR_BASED.value,
      reasoning := "Default fallback.",
      refined_query := user_query, urls := none }
  let urls := findallUrls user_query.data
  if !urls.isEmpty then
    { strategy := RetrievalStrategy.WEB_SEARCH.value,
      reasoning := "User query contains specific URLs: " ++ pyStrList urls ++
        ". Switching to Web Search.",
      refined_query := user_query,
      urls := some urls }
  else if !pyTruthy api_key then
    { fallback with reasoning := "No API key provided." }
  else
    match env.init with
    | Except.error e =>
      { fallback with strategy := RetrievalStrategy.DIRECT_LLM.value,
                      reasoning := "Agent initialization failed: " ++ e }
    | Except.ok _ =>
      match runRetries env.attempts 0 3 none with
      | Sum.inl d =>
        let strat :=
          match d.strategy with
          | some s => if strategyValues.contains s then s
                      else RetrievalStrategy.VECTOR_BASED.value
          | none => RetrievalStrategy.VECTOR_BASED.value
        { strategy := strat, reasoning := d.reasoning,
          refined_query := d.refined_query, urls := none }
      | Sum.inr lastError =>
        { fallback with
            strategy := RetrievalStrategy.DIRECT_LLM.value,
            reasoning := "Agent decision failed after 3 attempts: " ++
              (match lastError with | some e => e | none => "None") }

/- Relevance grader (`grade_documents`, retriever_agent.py lines 112-138). -/

/-- A langchain `Document`: page content plus a metadata dict. -/
structure Document where
  page_content : String
  metadata : List (String × Val)

/-- Environment of one `grade_documents` call: the combined outcome of the
try-block (LLM construction, prompt loading, `chain.invoke`, and the JSON
parse).  A successful call yields the parsed JSON dict; any exception along
the way (including a non-dict parse result, whose `.get` raises) is the
`error` case carrying the exception text. -/
structure GradeEnv where
  call : Except String (List (String × Val))

/-- `grade_documents(user_query, documents, api_key, model_name)`
(retriever_agent.py lines 112-138).  Returns the Python value
`result.get("score", "no")` on success, the string `"yes"` when the service
raises, and short-circuits to `"no"` on an empty document list. -/
def grade_documents (user_query : String) (documents : List Document)
    (env : GradeEnv) : Val :=
  if documents.isEmpty then Val.str "no"
  else
    match env.call with
    | Except.error _ => Val.str "yes"
    | Except.ok result => (List.lookup "score" result).getD (Val.str "no")

/- Orchestrator turn handling (`render_page`, chat_page.py lines 191-343). -/

/-- One Tavily web result (dict with title, url, content). -/
structure WebResult where
  title : String
  url : String
  content : String

/-- An element of the per-turn `sources` list: either a retrieved
`Document` or a raw web-result dict (chat_page.py lines 258 and 281). -/
inductive SrcItem where
  | doc : Document → SrcItem
  | web : WebResult → SrcItem

/-- `s.metadata if hasattr(s, 'metadata') else s` (chat_page.py line 325). -/
def srcMeta : SrcItem → Val
  | SrcItem.doc d => Val.dict d.metadata
  | SrcItem.web r => Val.dict [("title", Val.str r.title), ("url", Val.str r.url),
      ("content", Val.str r.content)]

/-- An Interaction row as assembled by `log_interaction`'s caller
(database.py lines 39-51; the id, timestamp and default rating are assigned
by the store on insert). -/
structure Interaction where
  user_prompt : String
  web_context : String
  llm_response : String
  source : String
  sources : List Val
  session_id : String

/-- `log_interaction(...)` argument assembly (database.py lines 39-47). -/
def log_interaction (user_prompt web_context llm_response source : String)
    (sources : List Val) (session_id : String) : Interaction :=
  { user_prompt := user_prompt, web_context := web_context,
    llm_response := llm_response, source := source,
    sources := sources, session_id := session_id }

/-- `small in big` for Python strings: `small` occurs as a contiguous
substring of `big`. -/
def hasSub (small : List Char) : List Char → Bool
  | [] => small.isEmpty
  | c :: rest => small.isPrefixOf (c :: rest) || hasSub small rest

/-- Python `small in big` on strings. -/
def strIn (small big : String) : Bool :=
  hasSub small.data big.data

/-- Environment of one orchestrator turn: the outcome of each external
dependency consulted along the way.  `memory_cached` is
`vector_store_manager.check_memory(user_prompt)`; `searchResults` is
`similarity_search(user_prompt, k=4)`; `webSearch` is the
`(web_context, web_results)` pair returned by `run_tavily_search`;
`genResponse` is the `ask_groq` answer text. -/
structure OrchEnv where
  memory_cached : Option String
  api_key : Option String
  routerEnv : RouterEnv
  hasVectorStore : Bool
  searchResults : List Document
  gradeEnv : GradeEnv
  webSearch : String × List WebResult
  genResponse : String
  model : String

/-- `docs` of the RAG branch (chat_page.py lines 231-236): the similarity
search runs only when a vector store exists. -/
def turnDocs (env : OrchEnv) : List Document :=
  if env.hasVectorStore then env.searchResults else []

/-- `grade` of the RAG branch (chat_page.py lines 239-247): `"no"` unless
documents were retrieved, in which case `grade_documents` is consulted. -/
def turnGrade (user_prompt : String) (env : OrchEnv) : Val :=
  if (turnDocs env).isEmpty then Val.str "no"
  else grade_documents user_prompt (turnDocs env) env.gradeEnv

/-- Python `grade == "yes"` (chat_page.py line 250). -/
def isYes : Val → Bool
  | Val.str s => s == "yes"
  | _ => false

/-- One retrieved document's contribution to `context_text`
(chat_page.py lines 254-257). -/
def docContextLine (d : Document) : String :=
  "--Source: " ++ pyStr ((List.lookup "source" d.metadata).getD (Val.str "Unknown Doc")) ++
  " (Page " ++ pyStr ((List.lookup "page" d.metadata).getD (Val.str "Unknown")) ++
  ")--\n" ++ d.page_content ++ "\n"

/-- Conversion of a web result into an indexable `Document`
(chat_page.py lines 283-287). -/
def webToDoc (r : WebResult) : Document :=
  { page_content := "Title: " ++ r.title ++ "\nURL: " ++ r.url ++
      "\nContent: " ++ r.content,
    metadata := [("source", Val.str r.title), ("url", Val.str r.url),
      ("page", Val.str "Web")] }

/-- The branch-dependent pieces of a turn: assembled context, citation
sources, strategy label, documents submitted to the vector store, and error
strings surfaced via `st.error`. -/
structure BranchOut where
  context_text : String
  sources : List SrcItem
  final_strategy : String
  storeAdded : List Document
  errorsShown : List String

/-- Observable outcome of one orchestrator turn. -/
structure TurnResult where
  response : String
  source_label : String
  logged : List Interaction
  storeAdded : List Document
  errorsShown : List String
  context_text : String
  sources : List SrcItem
  final_strategy : String
  memoryAdded : List (String × String)

/-- The turn-handling tail of `render_page` (chat_page.py lines 191-343):
memory-cache check, router call, direct/vector/web branching, generation,
interaction logging and memory insertion.  A memory hit renders the cached
answer and exits via `st.rerun()` before any of the later steps run. -/
def handleTurn (user_prompt session_id : String) (env : OrchEnv) : TurnResult :=
  match env.memory_cached with
  | some cached =>
    { response := cached, source_label := "Memory Cache", logged := [],
      storeAdded := [], errorsShown := [], context_text := "", sources := [],
      final_strategy := "", memoryAdded := [] }
  | none =>
    let agent_decision := get_retriever_decision user_prompt env.api_key env.routerEnv
    let branch : BranchOut :=
      if agent_decision.strategy = RetrievalStrategy.DIRECT_LLM.value then
        { context_text := "", sources := [],
          final_strategy := RetrievalStrategy.DIRECT_LLM.value,
          storeAdded := [], errorsShown := [] }
      else
        let docs := turnDocs env
        let grade := turnGrade user_prompt env
        if isYes grade then
          { context_text := "\n\n**Retrieved Documents:**\n" ++
              docs.foldl (fun acc d => acc ++ docContextLine d) "",
            sources := docs.map SrcItem.doc,
            final_strategy := RetrievalStrategy.VECTOR_BASED.value,
            storeAdded := [], errorsShown := [] }
        else
          let web_context := env.webSearch.1
          let web_results := env.webSearch.2
          if strIn "Error" web_context then
            { context_text := "", sources := [],
              final_strategy := RetrievalStrategy.WEB_SEARCH.value,
              storeAdded := [], errorsShown := [web_context] }
          else
            { context_text := "\n\n**Web Search Results:**\n" ++ web_context ++ "\n",
              sources := web_results.map SrcItem.web,
              final_strategy := RetrievalStrategy.WEB_SEARCH.value,
              storeAdded := web_results.map webToDoc, errorsShown := [] }
    let response_text := env.genResponse
    let interaction := log_interaction user_prompt branch.context_text response_text
      ("Groq (" ++ env.model ++ ") - " ++ branch.final_strategy)
      (branch.sources.map srcMeta) session_id
    { response := response_text,
      source_label := "Groq (" ++ env.model ++ ")",
      logged := [interaction],
      storeAdded := branch.storeAdded,
      errorsShown := branch.errorsShown,
      context_text := branch.context_text,
      sources := branch.sources,
      final_strategy := branch.final_strategy,
      memoryAdded := [(user_prompt, response_text)] }

/- Interaction store (`src/utils/database.py`).  The `interactions` table is
embedded as a list of rows; SQL `NULL`-able columns are `Option`s.  The
`sources` column holds a JSON-serialized citation list; it is modelled in
deserialized form (`json.dumps`/`json.loads` round-trip). -/

/-- One row of the `interactions` table (database.py lines 16-28). -/
structure InteractionRow where
  id : Int
  session_id : String
  timestamp : Nat
  user_prompt : String
  web_context : Option String
  llm_response : Option String
  rating : Int
  source : Option String
  sources : Option (List Val)

/-- `UPDATE interactions SET rating = ? WHERE id = ?`
(`update_interaction_rating`, database.py lines 53-59). -/
def update_interaction_rating (interaction_id rating : Int)
    (table : List InteractionRow) : List InteractionRow :=
  table.map (fun r => if r.id = interaction_id then { r with rating := rating } else r)

/-- Stable insertion into a timestamp-descending list (row order of
`ORDER BY timestamp DESC`). -/
def insertByTsDesc (r : InteractionRow) :
    List InteractionRow → List InteractionRow
  | [] => [r]
  | x :: xs => if r.timestamp ≤ x.timestamp then x :: insertByTsDesc r xs
               else r :: x :: xs

/-- `ORDER BY timestamp DESC` as a stable insertion sort. -/
def sortByTsDesc : List InteractionRow → List InteractionRow
  | [] => []
  | x :: xs => insertByTsDesc x (sortByTsDesc xs)

/-- A Python `None`-able string as a `Val`. -/
def optVal : Option String → Val
  | some s => Val.str s
  | none => Val.null

/-- The two message dicts built from one fetched row
(`load_chat_history_from_db`, database.py lines 92-100). -/
def rowToMessages (r : InteractionRow) : List (List (String × Val)) :=
  [[("role", Val.str "user"), ("content", Val.str r.user_prompt)],
   [("role", Val.str "assistant"),
    ("content", optVal r.llm_response),
    ("source", optVal r.source),
    ("sources", Val.list ((r.sources).getD [])),
    ("interaction_id", Val.int r.id)]]

/-- `load_chat_history_from_db(session_id, limit)` (database.py lines
82-101): select the session's rows, newest first, keep at most `limit`,
then walk them oldest-first emitting a user/assistant dict pair per row. -/
def load_chat_history_from_db (session_id : String) (limit : Nat)
    (table : List InteractionRow) : List (List (String × Val)) :=
  let rows := (sortByTsDesc (table.filter (fun r => r.session_id == session_id))).take limit
  rows.reverse.flatMap rowToMessages

/- Shared concrete fixtures used by witnesses and counterexamples. -/

/-- A router environment whose classification service is down on every
attempt. -/
def routerEnvDown : RouterEnv :=
  { init := Except.ok (), attempts := fun _ => Except.error "service down" }

/-- A sample retrieved document. -/
def doc0 : Document :=
  { page_content := "Paris is the capital of France.",
    metadata := [("source", Val.str "geo.pdf"), ("page", Val.int 3)] }

/- Theorems for the claims. -/

/-- Claim C6: for every query, grading an empty document sequence returns
"no" (not-relevant); the result does not depend on the grading-service
environment at all, so no external call is consulted. -/
theorem grade_documents_empty_no (user_query : String) (env : GradeEnv) :
    grade_documents user_query [] env = Val.str "no" := rfl

/-- Claim C5: for every query and non-empty document list, if the grading
service raises, `grade_documents` fails open and returns "yes" instead of
propagating the exception. -/
theorem grade_documents_fail_open (user_query : String)
    (documents : List Document) (env : GradeEnv) (e : String)
    (hne : documents.isEmpty = false) (herr : env.call = Except.error e) :
    grade_documents user_query documents env = Val.str "yes" := by
  simp [grade_documents, hne, herr]

/-- Witness for C5 at a concrete document list and a failing service. -/
theorem grade_documents_fail_open_witness :
    ([doc0].isEmpty = false) ∧
    (GradeEnv.call { call := Except.error "boom" } = Except.error "boom") ∧
    grade_documents "q" [doc0] { call := Except.error "boom" } = Val.str "yes" :=
  ⟨rfl, rfl,
    grade_documents_fail_open "q" [doc0] { call := Except.error "boom" } "boom" rfl rfl⟩

/-- Claim C10: for every query and non-empty document list, if the grading
service succeeds but the parsed JSON dict has no "score" field, the grader
returns "no" — the missing-field default is fail-closed. -/
theorem grade_documents_missing_score_no (user_query : String)
    (documents : List Document) (env : GradeEnv)
    (result : List (String × Val))
    (hne : documents.isEmpty = false) (hok : env.call = Except.ok result)
    (hmiss : List.lookup "score" result = none) :
    grade_documents user_query documents env = Val.str "no" := by
  simp [grade_documents, hne, hok, hmiss]

/-- Witness for C10 at a concrete score-less service response. -/
theorem grade_documents_missing_score_no_witness :
    ([doc0].isEmpty = false) ∧
    (List.lookup "score" [("verdict", Val.str "yes")] = none) ∧
    grade_documents "q" [doc0]
      { call := Except.ok [("verdict", Val.str "yes")] } = Val.str "no" :=
  ⟨rfl, rfl,
    grade_documents_missing_score_no "q" [doc0]
      { call := Except.ok [("verdict", Val.str "yes")] }
      [("verdict", Val.str "yes")] rfl rfl rfl⟩

/-- Claim C2: whenever the query contains at least one substring matching the
URL pattern, the router short-circuits to Web Search with the extracted URL
list, a reasoning string naming those URLs, and the original query as
refined query — independently of the API key and of the classification
service. -/
theorem router_url_short_circuit (user_query : String)
    (api_key : Option String) (env : RouterEnv)
    (hurls : findallUrls user_query.data ≠ []) :
    get_retriever_decision user_query api_key env =
      { strategy := RetrievalStrategy.WEB_SEARCH.value,
        reasoning := "User query contains specific URLs: " ++
          pyStrList (findallUrls user_query.data) ++ ". Switching to Web Search.",
        refined_query := user_query,
        urls := some (findallUrls user_query.data) } := by
  cases hx : findallUrls user_query.data with
  | nil => exact absurd hx hurls
  | cons a l => simp [get_retriever_decision, hx]

/-- Witness for C2 on the spec's own scenario query. -/
theorem router_url_short_circuit_witness :
    (findallUrls "See https://example.com/report.pdf".data ≠ []) ∧
    get_retriever_decision "See https://example.com/report.pdf" none routerEnvDown =
      { strategy := RetrievalStrategy.WEB_SEARCH.value,
        reasoning := "User query contains specific URLs: " ++
          pyStrList (findallUrls "See https://example.com/report.pdf".data) ++
          ". Switching to Web Search.",
        refined_query := "See https://example.com/report.pdf",
        urls := some (findallUrls "See https://example.com/report.pdf".data) } :=
  ⟨by decide,
    router_url_short_circuit "See https://example.com/report.pdf" none
      routerEnvDown (by decide)⟩

/-- A classification response whose strategy string is outside the
enumeration. -/
def bananaDecision : ParsedDecision :=
  { strategy := some "Banana", reasoning := "r", refined_query := "hi" }

/-- A router environment whose classification service always returns
`bananaDecision`. -/
def routerEnvBanana : RouterEnv :=
  { init := Except.ok (), attempts := fun _ => Except.ok bananaDecision }

/-- A router environment whose initialization fails. -/
def routerEnvInitFail : RouterEnv :=
  { init := Except.error "no network", attempts := fun _ => Except.error "x" }

/-- Claim C3: the router's returned strategy is always one of the four
enumerated values, for every query, key and classification-service
behaviour; and when the classification call succeeds with an unrecognized
(or absent) strategy string, it is coerced to Vector-Based before being
returned. -/
theorem router_strategy_closed (user_query : String) (api_key : Option String)
    (env : RouterEnv) :
    (get_retriever_decision user_query api_key env).strategy ∈ strategyValues ∧
    (∀ d : ParsedDecision,
      findallUrls user_query.data = [] → pyTruthy api_key = true →
      env.init = Except.ok () →
      runRetries env.attempts 0 3 none = Sum.inl d →
      (∀ s, d.strategy = some s → strategyValues.contains s = false) →
      (get_retriever_decision user_query api_key env).strategy =
        RetrievalStrategy.VECTOR_BASED.value) := by
  constructor
  · cases hx : findallUrls user_query.data with
    | cons a l => simp [get_retriever_decision, hx, strategyValues]
    | nil =>
      cases hk : pyTruthy api_key with
      | false => simp [get_retriever_decision, hx, hk, strategyValues]
      | true =>
        cases hin : env.init with
        | error e => simp [get_retriever_decision, hx, hk, hin, strategyValues]
        | ok u =>
          cases hrun : runRetries env.attempts 0 3 none with
          | inr le => simp [get_retriever_decision, hx, hk, hin, hrun, strategyValues]
          | inl d =>
            cases hd : d.strategy with
            | none =>
              simp [get_retriever_decision, hx, hk, hin, hrun, hd, strategyValues]
            | some s =>
              by_cases hcon : s ∈ strategyValues
              · have hc : strategyValues.contains s = true := by simpa using hcon
                simp only [get_retriever_decision, hx, hk, hin, hrun, hd, hc]
                simpa using hcon
              · have hc : strategyValues.contains s = false := by simpa using hcon
                simp only [get_retriever_decision, hx, hk, hin, hrun, hd, hc]
                simp [strategyValues]
  · intro d h1 h2 h3 h4 h5
    cases hd : d.strategy with
    | none => simp [get_retriever_decision, h1, h2, h3, h4, hd]
    | some s =>
      have hc := h5 s hd
      simp only [get_retriever_decision, h1, h2, h3, h4, hd, hc]
      simp

/-- Witness for C3 with a classification service that hallucinates the
strategy string "Banana". -/
theorem router_strategy_closed_witness :
    (findallUrls "hi".data = []) ∧
    (pyTruthy (some "gsk_key") = true) ∧
    (runRetries routerEnvBanana.attempts 0 3 none = Sum.inl bananaDecision) ∧
    (get_retriever_decision "hi" (some "gsk_key") routerEnvBanana).strategy =
      RetrievalStrategy.VECTOR_BASED.value :=
  ⟨by decide, rfl, rfl,
    (router_strategy_closed "hi" (some "gsk_key") routerEnvBanana).2
      bananaDecision (by decide) rfl rfl rfl
      (by intro s hs
          simp only [bananaDecision] at hs
          cases hs
          decide)⟩

/-- Claim C4: the router never propagates a failure: if initialization
fails it returns the Direct-LLM fallback naming the error, and if all three
classification attempts fail it returns the Direct-LLM fallback citing the
last attempt's error. -/
theorem router_never_raises (user_query : String) (api_key : Option String)
    (env : RouterEnv)
    (h1 : findallUrls user_query.data = []) (h2 : pyTruthy api_key = true) :
    (∀ e, env.init = Except.error e →
      get_retriever_decision user_query api_key env =
        { strategy := RetrievalStrategy.DIRECT_LLM.value,
          reasoning := "Agent initialization failed: " ++ e,
          refined_query := user_query, urls := none }) ∧
    (∀ e0 e1 e2, env.init = Except.ok () →
      env.attempts 0 = Except.error e0 →
      env.attempts 1 = Except.error e1 →
      env.attempts 2 = Except.error e2 →
      get_retriever_decision user_query api_key env =
        { strategy := RetrievalStrategy.DIRECT_LLM.value,
          reasoning := "Agent decision failed after 3 attempts: " ++ e2,
          refined_query := user_query, urls := none }) := by
  constructor
  · intro e he
    simp [get_retriever_decision, h1, h2, he]
  · intro e0 e1 e2 hin ha0 ha1 ha2
    have hrun : runRetries env.attempts 0 3 none = Sum.inr (some e2) := by
      simp [runRetries, ha0, ha1, ha2]
    simp [get_retriever_decision, h1, h2, hin, hrun]

/-- A router environment whose classification attempts all fail. -/
def routerEnvAllFail : RouterEnv :=
  { init := Except.ok (), attempts := fun _ => Except.error "service down" }

/-- Witness for C4: both failure modes at concrete environments. -/
theorem router_never_raises_witness :
    (findallUrls "hi".data = []) ∧
    (pyTruthy (some "gsk_key") = true) ∧
    get_retriever_decision "hi" (some "gsk_key") routerEnvInitFail =
      { strategy := RetrievalStrategy.DIRECT_LLM.value,
        reasoning := "Agent initialization failed: " ++ "no network",
        refined_query := "hi", urls := none } ∧
    get_retriever_decision "hi" (some "gsk_key") routerEnvAllFail =
      { strategy := RetrievalStrategy.DIRECT_LLM.value,
        reasoning := "Agent decision failed after 3 attempts: " ++ "service down",
        refined_query := "hi", urls := none } :=
  ⟨by decide, rfl,
    (router_never_raises "hi" (some "gsk_key") routerEnvInitFail
      (by decide) rfl).1 "no network" rfl,
    (router_never_raises "hi" (some "gsk_key") routerEnvAllFail
      (by decide) rfl).2 "service down" "service down" "service down" rfl rfl rfl rfl⟩

/- Helper lemmas about `strIn`. -/

/-- A list is a `isPrefixOf`-prefix of itself followed by anything. -/
theorem isPre_append (l1 l2 : List Char) : l1.isPrefixOf (l1 ++ l2) = true := by
  induction l1 with
  | nil => simp [List.isPrefixOf]
  | cons c cs ih => simp [List.isPrefixOf, ih]

/-- A leading occurrence is in particular a substring occurrence. -/
theorem hasSub_of_isPre (small big : List Char)
    (h : small.isPrefixOf big = true) : hasSub small big = true := by
  cases big with
  | nil =>
    cases small with
    | nil => rfl
    | cons c cs => simp [List.isPrefixOf] at h
  | cons c rest => simp [hasSub, h]

/-- Python `pre in (pre + t)` is always true. -/
theorem strIn_append (pre t : String) : strIn pre (pre ++ t) = true := by
  unfold strIn
  rw [String.data_append]
  exact hasSub_of_isPre _ _ (isPre_append pre.data t.data)

/- Orchestrator fixtures. -/

/-- An orchestrator environment with a memory-cache hit. -/
def envMemoryHit : OrchEnv :=
  { memory_cached := some "cached answer", api_key := none,
    routerEnv := routerEnvDown, hasVectorStore := false, searchResults := [],
    gradeEnv := { call := Except.error "down" },
    webSearch := ("", []), genResponse := "generated", model := "llama3-8b-8192" }

/-- An orchestrator environment with a memory miss, no API key (so the
router picks Vector-Based), no vector store, and a failing web search. -/
def envWebError : OrchEnv :=
  { memory_cached := none, api_key := none,
    routerEnv := routerEnvDown, hasVectorStore := false, searchResults := [],
    gradeEnv := { call := Except.error "down" },
    webSearch := ("Error: Tavily quota exceeded", []),
    genResponse := "generated", model := "llama3-8b-8192" }

/-- A sample web result. -/
def r0 : WebResult :=
  { title := "Example Domain", url := "https://example.com",
    content := "snippet text" }

/-- An orchestrator environment on the web-fallback path with one web
result and no error marker. -/
def envWebOk : OrchEnv :=
  { memory_cached := none, api_key := none,
    routerEnv := routerEnvDown, hasVectorStore := false, searchResults := [],
    gradeEnv := { call := Except.error "down" },
    webSearch := ("Web context text", [r0]),
    genResponse := "generated", model := "llama3-8b-8192" }

/-- Claim C1 (counterexample): on a memory-cache hit the orchestrator
appends zero Interaction rows, not one — `st.rerun()` exits the turn
before `log_interaction` is reached. -/
theorem handleTurn_memory_hit_logs_nothing :
    (handleTurn "q" "default" envMemoryHit).logged.length = 0 := rfl

/-- Claim C1 (amended): every turn that passes the memory check appends
exactly one Interaction row, whichever branch (direct, vector or web,
error marker or not) is taken. -/
theorem handleTurn_logs_exactly_one (user_prompt session_id : String)
    (env : OrchEnv) (h : env.memory_cached = none) :
    (handleTurn user_prompt session_id env).logged.length = 1 := by
  simp [handleTurn, h]

/-- Witness for amended C1 at a concrete memory-miss environment. -/
theorem handleTurn_logs_exactly_one_witness :
    (envWebOk.memory_cached = none) ∧
    (handleTurn "q" "default" envWebOk).logged.length = 1 :=
  ⟨rfl, handleTurn_logs_exactly_one "q" "default" envWebOk rfl⟩

/-- Claim C7: when the web-fallback path is taken and the web search's
context text carries the "Error" sentinel (a string prefixed with
"Error"), the orchestrator indexes nothing into the document store,
injects no web context into the generation prompt, and surfaces the error
string to the user. -/
theorem handleTurn_web_error_suppresses (user_prompt session_id : String)
    (env : OrchEnv)
    (h1 : env.memory_cached = none)
    (h2 : (get_retriever_decision user_prompt env.api_key env.routerEnv).strategy ≠
      RetrievalStrategy.DIRECT_LLM.value)
    (h3 : isYes (turnGrade user_prompt env) = false)
    (h4 : ∃ t, env.webSearch.1 = "Error" ++ t) :
    (handleTurn user_prompt session_id env).storeAdded = [] ∧
    (handleTurn user_prompt session_id env).context_text = "" ∧
    (handleTurn user_prompt session_id env).errorsShown = [env.webSearch.1] := by
  obtain ⟨t, ht⟩ := h4
  have hs : strIn "Error" env.webSearch.1 = true := by
    rw [ht]; exact strIn_append "Error" t
  refine ⟨?_, ?_, ?_⟩ <;> simp [handleTurn, h1, h2, h3, hs]

/-- Witness for C7 at a concrete quota-exceeded web error. -/
theorem handleTurn_web_error_suppresses_witness :
    (envWebError.memory_cached = none) ∧
    ((get_retriever_decision "q" envWebError.api_key envWebError.routerEnv).strategy ≠
      RetrievalStrategy.DIRECT_LLM.value) ∧
    (isYes (turnGrade "q" envWebError) = false) ∧
    (envWebError.webSearch.1 = "Error" ++ ": Tavily quota exceeded") ∧
    ((handleTurn "q" "default" envWebError).storeAdded = [] ∧
     (handleTurn "q" "default" envWebError).context_text = "" ∧
     (handleTurn "q" "default" envWebError).errorsShown = [envWebError.webSearch.1]) :=
  ⟨rfl, by decide, rfl, by decide,
    handleTurn_web_error_suppresses "q" "default" envWebError rfl (by decide) rfl
      ⟨": Tavily quota exceeded", by decide⟩⟩

/-- Claim C8 (counterexample): the DocumentChunk indexed for a web result
carries no "origin" metadata key at all (web origin is conveyed only by
page="Web"), and the citation list receives the raw WebResult dict, not
the chunk. -/
theorem web_chunk_has_no_origin_key :
    List.lookup "origin" (webToDoc r0).metadata = none ∧
    (handleTurn "q" "default" envWebOk).storeAdded = [webToDoc r0] ∧
    (handleTurn "q" "default" envWebOk).sources = [SrcItem.web r0] :=
  ⟨rfl, rfl, rfl⟩

/-- Claim C8 (amended): on the web-fallback path with no error marker,
every WebResult is turned 1:1 into a Document whose content concatenates
title, url and snippet and whose metadata is exactly
source=title, url, page="Web" (no origin key); each chunk is added to the
document store, the raw WebResult is appended to the citation list, and
the web context is injected into the prompt context. -/
theorem handleTurn_web_indexing (user_prompt session_id : String)
    (env : OrchEnv)
    (h1 : env.memory_cached = none)
    (h2 : (get_retriever_decision user_prompt env.api_key env.routerEnv).strategy ≠
      RetrievalStrategy.DIRECT_LLM.value)
    (h3 : isYes (turnGrade user_prompt env) = false)
    (h4 : strIn "Error" env.webSearch.1 = false) :
    (handleTurn user_prompt session_id env).storeAdded =
      env.webSearch.2.map (fun r =>
        { page_content := "Title: " ++ r.title ++ "\nURL: " ++ r.url ++
            "\nContent: " ++ r.content,
          metadata := [("source", Val.str r.title), ("url", Val.str r.url),
            ("page", Val.str "Web")] }) ∧
    (handleTurn user_prompt session_id env).sources =
      env.webSearch.2.map SrcItem.web ∧
    (handleTurn user_prompt session_id env).context_text =
      "\n\n**Web Search Results:**\n" ++ env.webSearch.1 ++ "\n" := by
  refine ⟨?_, ?_, ?_⟩ <;>
    simp [handleTurn, h1, h2, h3, h4, webToDoc]

/-- Witness for amended C8 at a concrete single-result web search. -/
theorem handleTurn_web_indexing_witness :
    (envWebOk.memory_cached = none) ∧
    ((get_retriever_decision "q" envWebOk.api_key envWebOk.routerEnv).strategy ≠
      RetrievalStrategy.DIRECT_LLM.value) ∧
    (isYes (turnGrade "q" envWebOk) = false) ∧
    (strIn "Error" envWebOk.webSearch.1 = false) ∧
    ((handleTurn "q" "default" envWebOk).storeAdded =
      envWebOk.webSearch.2.map (fun r =>
        { page_content := "Title: " ++ r.title ++ "\nURL: " ++ r.url ++
            "\nContent: " ++ r.content,
          metadata := [("source", Val.str r.title), ("url", Val.str r.url),
            ("page", Val.str "Web")] }) ∧
     (handleTurn "q" "default" envWebOk).sources =
       envWebOk.webSearch.2.map SrcItem.web ∧
     (handleTurn "q" "default" envWebOk).context_text =
       "\n\n**Web Search Results:**\n" ++ envWebOk.webSearch.1 ++ "\n") :=
  ⟨rfl, by decide, rfl, by decide,
    handleTurn_web_indexing "q" "default" envWebOk rfl (by decide) rfl (by decide)⟩

/- Helper lemmas: the rating update touches no field that the listing
reads, so it commutes with every stage of `load_chat_history_from_db`. -/

/-- The rating update preserves the timestamp. -/
theorem update_row_timestamp (iid v : Int) (r : InteractionRow) :
    (if r.id = iid then { r with rating := v } else r).timestamp = r.timestamp := by
  split <;> rfl

/-- The rating update preserves the session id. -/
theorem update_row_session (iid v : Int) (r : InteractionRow) :
    (if r.id = iid then { r with rating := v } else r).session_id = r.session_id := by
  split <;> rfl

/-- The two listing messages of a row ignore the rating column. -/
theorem rowToMessages_update (iid v : Int) (r : InteractionRow) :
    rowToMessages (if r.id = iid then { r with rating := v } else r) =
      rowToMessages r := by
  split <;> rfl

/-- `insertByTsDesc` commutes with the rating update. -/
theorem insertByTsDesc_update (iid v : Int) (r : InteractionRow)
    (l : List InteractionRow) :
    insertByTsDesc (if r.id = iid then { r with rating := v } else r)
        (l.map (fun x => if x.id = iid then { x with rating := v } else x)) =
      (insertByTsDesc r l).map
        (fun x => if x.id = iid then { x with rating := v } else x) := by
  induction l with
  | nil => simp [insertByTsDesc]
  | cons x xs ih =>
    by_cases h : r.timestamp ≤ x.timestamp <;>
      simp [insertByTsDesc, update_row_timestamp, h, ih]

/-- `sortByTsDesc` commutes with the rating update. -/
theorem sortByTsDesc_update (iid v : Int) (l : List InteractionRow) :
    sortByTsDesc (l.map (fun x => if x.id = iid then { x with rating := v } else x)) =
      (sortByTsDesc l).map (fun x => if x.id = iid then { x with rating := v } else x) := by
  induction l with
  | nil => rfl
  | cons x xs ih => simp [sortByTsDesc, ih, insertByTsDesc_update]

/-- The session filter commutes with the rating update. -/
theorem filter_session_update (iid v : Int) (session_id : String)
    (l : List InteractionRow) :
    (l.map (fun x => if x.id = iid then { x with rating := v } else x)).filter
        (fun r => r.session_id == session_id) =
      (l.filter (fun r => r.session_id == session_id)).map
        (fun x => if x.id = iid then { x with rating := v } else x) := by
  induction l with
  | nil => rfl
  | cons x xs ih =>
    by_cases h : x.session_id == session_id <;>
      simp [List.filter, update_row_session, h, ih]

/-- `flatMap rowToMessages` absorbs the rating update. -/
theorem flatMap_messages_update (iid v : Int) (l : List InteractionRow) :
    (l.map (fun x => if x.id = iid then { x with rating := v } else x)).flatMap
        rowToMessages =
      l.flatMap rowToMessages := by
  induction l with
  | nil => rfl
  | cons x xs ih => simp [rowToMessages_update, ih]

/-- The per-session listing is unchanged by any rating update. -/
theorem load_chat_history_update (session_id : String) (limit : Nat)
    (iid v : Int) (table : List InteractionRow) :
    load_chat_history_from_db session_id limit
        (update_interaction_rating iid v table) =
      load_chat_history_from_db session_id limit table := by
  unfold load_chat_history_from_db update_interaction_rating
  simp only [filter_session_update, sortByTsDesc_update, ← List.map_take,
    ← List.map_reverse, flatMap_messages_update]

/-- Claim C9 (amended): updating an interaction's rating changes only the
rating column of the rows with that id and no other field of any row; and
since the per-session listing does not expose ratings at all, the listing
output is entirely unchanged by the update (the new rating is visible only
by reading the row itself). -/
theorem update_rating_frame (table : List InteractionRow) (iid v : Int)
    (i : Nat) (r r' : InteractionRow)
    (h1 : table[i]? = some r)
    (h2 : (update_interaction_rating iid v table)[i]? = some r') :
    (r'.id = r.id ∧ r'.session_id = r.session_id ∧ r'.timestamp = r.timestamp ∧
     r'.user_prompt = r.user_prompt ∧ r'.web_context = r.web_context ∧
     r'.llm_response = r.llm_response ∧ r'.source = r.source ∧
     r'.sources = r.sources ∧
     (r.id = iid → r'.rating = v) ∧ (r.id ≠ iid → r'.rating = r.rating)) ∧
    (∀ session_id limit,
      load_chat_history_from_db session_id limit
          (update_interaction_rating iid v table) =
        load_chat_history_from_db session_id limit table) := by
  have hr' : r' = if r.id = iid then { r with rating := v } else r := by
    have hm : (update_interaction_rating iid v table)[i]? =
        (table[i]?).map (fun x => if x.id = iid then { x with rating := v } else x) := by
      unfold update_interaction_rating
      exact List.getElem?_map _ _ _
    rw [hm, h1] at h2
    exact (Option.some_inj.mp h2).symm
  constructor
  · by_cases h : r.id = iid <;> simp [hr', h]
  · intro session_id limit
    exact load_chat_history_update session_id limit iid v table

/-- A one-row interaction table. -/
def row0 : InteractionRow :=
  { id := 1, session_id := "default", timestamp := 10, user_prompt := "hi",
    web_context := some "", llm_response := some "hello", rating := 0,
    source := some "Groq (llama3-8b-8192) - Vector-Based", sources := some [] }

/-- The table holding just `row0`. -/
def tbl0 : List InteractionRow := [row0]

/-- `row0` after `setRating(1, 1)`. -/
def row0updated : InteractionRow := { row0 with rating := 1 }

/-- Witness for amended C9 on the one-row table. -/
theorem update_rating_frame_witness :
    (tbl0[0]? = some row0) ∧
    ((update_interaction_rating 1 1 tbl0)[0]? = some row0updated) ∧
    ((row0updated.id = row0.id ∧ row0updated.session_id = row0.session_id ∧
      row0updated.timestamp = row0.timestamp ∧
      row0updated.user_prompt = row0.user_prompt ∧
      row0updated.web_context = row0.web_context ∧
      row0updated.llm_response = row0.llm_response ∧
      row0updated.source = row0.source ∧
      row0updated.sources = row0.sources ∧
      (row0.id = 1 → row0updated.rating = 1) ∧
      (row0.id ≠ 1 → row0updated.rating = row0.rating)) ∧
     (∀ session_id limit,
       load_chat_history_from_db session_id limit
           (update_interaction_rating 1 1 tbl0) =
         load_chat_history_from_db session_id limit tbl0)) :=
  ⟨rfl, rfl, update_rating_frame tbl0 1 1 0 row0 row0updated rfl rfl⟩

/-- Claim C9 (counterexample): after `setRating(1, 1)` the per-session
listing for the row's session is non-empty but contains no "rating" key in
any message — it does not show the new rating — and is in fact identical
to the listing before the update. -/
theorem rating_not_shown_in_listing :
    (load_chat_history_from_db "default" 50 (update_interaction_rating 1 1 tbl0)).length = 2 ∧
    ((load_chat_history_from_db "default" 50 (update_interaction_rating 1 1 tbl0)).all
      (fun m => (List.lookup "rating" m).isNone)) = true ∧
    load_chat_history_from_db "default" 50 (update_interaction_rating 1 1 tbl0) =
      load_chat_history_from_db "default" 50 tbl0 :=
  ⟨rfl, rfl, rfl⟩
